import Mathlib

/-!
# Verification of the bulk product duplication service

A shallow embedding of the server actions `bulkDuplicateProducts` and
`prepareImageUploads` and of the client workflow step `uploadImagesIfNeeded`,
together with theorems settling the specified properties.

Modelling conventions:
* JavaScript strings are modelled as lists of characters (`Str`); the
  JavaScript truthiness of a string (the empty string is falsy) and the
  `??` operator (which tests only for null/undefined) are rendered
  explicitly at each use site.
* Remote GraphQL calls are modelled by an oracle giving, for each duplicate
  index, the response the remote service returns to the call issued while
  processing that duplicate; the calls actually issued are collected in a
  trace so that theorems can speak about which requests were sent.
* Exceptions are modelled with `Except`.
-/

namespace BulkDup

/-- Strings are modelled as character lists. -/
abbrev Str := List Char

/-- JavaScript `String.prototype.trim`: remove whitespace from both ends. -/
def trimStr (s : Str) : Str :=
  ((s.dropWhile Char.isWhitespace).reverse.dropWhile Char.isWhitespace).reverse

/-- JavaScript `String.prototype.split` with a single-character separator
(`"".split(sep)` yields `[""]`). -/
def splitOnChar (sep : Char) (s : Str) : List Str :=
  s.foldr
    (fun c acc =>
      match acc with
      | [] => [[c]]
      | a :: rest => if c = sep then [] :: a :: rest else (c :: a) :: rest)
    [[]]

/-- JavaScript `Array.prototype.join` with the given separator. -/
def joinSep (sep : Str) : List Str → Str
  | [] => []
  | [x] => x
  | x :: xs => x ++ sep ++ joinSep sep xs

/-- The replacement `id.replace(/^.*\/(\d+)$/, "$1")` performed by
`normalizeGid` in `bulkDuplicateProducts.ts`: when the string ends in a
nonempty run of digits immediately preceded by a slash (with no newline
before, since `.` does not match newlines), the whole string is replaced by
that digit run; otherwise the string is returned unchanged. -/
def replaceGidCapture (s : Str) : Str :=
  let rev := s.reverse
  let digits := rev.takeWhile Char.isDigit
  match rev.dropWhile Char.isDigit with
  | '/' :: pre =>
      if digits ≠ [] ∧ pre.all (fun c => c ≠ '\n') then digits.reverse else s
  | _ => s

/-- `normalizeGid` from `bulkDuplicateProducts.ts`:
`id?.startsWith("gid://") ? id : `gid://shopify/Product/${id.replace(/^.*\/(\d+)$/, "$1")}``. -/
def normalizeGid (pid : Str) : Str :=
  if ("gid://".data).isPrefixOf pid then pid
  else "gid://shopify/Product/".data ++ replaceGidCapture pid

theorem isPrefixOf_append_self (l t : Str) : l.isPrefixOf (l ++ t) = true := by
  induction l with
  | nil => simp [List.isPrefixOf]
  | cons a as ih => simp [List.isPrefixOf, ih]

theorem gid_isPrefixOf_product (r : Str) :
    ("gid://".data).isPrefixOf ("gid://shopify/Product/".data ++ r) = true := by
  have h : "gid://shopify/Product/".data = "gid://".data ++ "shopify/Product/".data := by
    decide
  rw [h, List.append_assoc]
  exact isPrefixOf_append_self _ _

theorem normalizeGid_of_gid (s : Str) (h : ("gid://".data).isPrefixOf s = true) :
    normalizeGid s = s := by
  simp [normalizeGid, h]

/-- C5: the source-product identifier normalization is idempotent; every
already-canonical id of the form `gid://shopify/Product/<numeric>` is
returned unchanged, and the bare numeric id `"12345"` normalizes to
`"gid://shopify/Product/12345"`. -/
theorem normalizeGid_idempotent_spec :
    (∀ s : Str, normalizeGid (normalizeGid s) = normalizeGid s) ∧
    (∀ ds : Str, ds ≠ [] → ds.all Char.isDigit = true →
      normalizeGid ("gid://shopify/Product/".data ++ ds)
        = "gid://shopify/Product/".data ++ ds) ∧
    normalizeGid "12345".data = "gid://shopify/Product/12345".data := by
  refine ⟨?_, ?_, ?_⟩
  · intro s
    by_cases h : ("gid://".data).isPrefixOf s = true
    · rw [normalizeGid_of_gid s h]; exact normalizeGid_of_gid s h
    · have h2 : normalizeGid s = "gid://shopify/Product/".data ++ replaceGidCapture s := by
        simp [normalizeGid, h]
      rw [h2, normalizeGid_of_gid _ (gid_isPrefixOf_product _)]
  · intro ds _ _
    exact normalizeGid_of_gid _ (gid_isPrefixOf_product ds)
  · decide

/-- Witness for C5 at concrete inputs. -/
theorem normalizeGid_idempotent_spec_witness :
    normalizeGid (normalizeGid "products/42".data) = normalizeGid "products/42".data ∧
    ("777".data ≠ [] ∧ ("777".data).all Char.isDigit = true) ∧
    normalizeGid ("gid://shopify/Product/".data ++ "777".data)
      = "gid://shopify/Product/".data ++ "777".data :=
  ⟨normalizeGid_idempotent_spec.1 _, ⟨by decide, by decide⟩,
    normalizeGid_idempotent_spec.2.1 "777".data (by decide) (by decide)⟩

/-! ## Data model of the source product and duplicate specifications -/

/-- One option value of a source-product option (`optionValues { id name }`). -/
structure OptionValue where
  id : Str
  name : Str
deriving DecidableEq

/-- One source-product option (`options { id name optionValues }`). -/
structure ProductOption where
  id : Str
  name : Str
  optionValues : List OptionValue
deriving DecidableEq

/-- A selected option of a source variant (`selectedOptions { name value }`). -/
structure SelectedOption where
  name : Str
  value : Str
deriving DecidableEq

/-- One source-product variant (`variants(first: 250)`). -/
structure BaseVariant where
  id : Str
  price : Option Str
  selectedOptions : List SelectedOption
deriving DecidableEq

/-- One media node (`media(first: 50)`): content type, `image.url` when the
node is a MediaImage, and `preview.image.url`. -/
structure MediaNode where
  mediaContentType : Str
  imageUrl : Option Str
  previewImageUrl : Option Str
deriving DecidableEq

/-- The source product as fetched by the base-product query. Fields other
than `id` and `title` may be missing in the response, hence `Option`. -/
structure BaseProduct where
  id : Str
  title : Str
  descriptionHtml : Option Str
  vendor : Option Str
  productType : Option Str
  tags : Option (List Str)
  options : List ProductOption
  variants : List BaseVariant
  media : List MediaNode
deriving DecidableEq

/-- The `tags` field of a duplicate spec is accepted either as an array of
strings or as a comma-separated string. -/
inductive TagsField where
  | arr (tags : List Str)
  | str (s : Str)
deriving DecidableEq

/-- `DuplicateInput` from `bulkDuplicateProducts.ts`: one user-supplied
override set; absent fields inherit from the source product. -/
structure DuplicateInput where
  title : Option Str := none
  imageUrls : Option (List Str) := none
  descriptionHtml : Option Str := none
  vendor : Option Str := none
  tags : Option TagsField := none
  productType : Option Str := none
  price : Option Str := none
deriving DecidableEq

/-! ## Requests sent to the remote service -/

/-- One entry of `productOptions` in the creation request: the option name
with its value names. -/
structure ProductOptionInput where
  name : Str
  values : List Str
deriving DecidableEq

/-- The `productInput` object of the creation request. -/
structure ProductInput where
  title : Str
  descriptionHtml : Option Str
  vendor : Option Str
  productType : Option Str
  tags : List Str
  productOptions : List ProductOptionInput
deriving DecidableEq

/-- One media attachment of the creation request
(`{ originalSource: url, mediaContentType: "IMAGE" }`). -/
structure MediaCreateInput where
  originalSource : Str
  mediaContentType : Str
deriving DecidableEq

/-- The full `productCreate` request: product input plus the optional media
list (omitted when there are no media entries). -/
structure ProductCreateRequest where
  product : ProductInput
  media : Option (List MediaCreateInput)
deriving DecidableEq

/-- One option value of a bulk-create variant input: the value name together
with the created product's option id (possibly undefined when the name
lookup missed). -/
structure VariantOptionValueInput where
  name : Str
  optionId : Option Str
deriving DecidableEq

/-- One variant of the `productVariantsBulkCreate` request. -/
structure VariantCreateInput where
  price : Option Str
  optionValues : List VariantOptionValueInput
deriving DecidableEq

/-- One variant of a `productVariantsBulkUpdate` request
(`{ id: firstVariantId, price: priceStr }`). -/
structure VariantUpdateInput where
  id : Str
  price : Str
deriving DecidableEq

/-- A remote call issued by the duplication run. -/
inductive RemoteCall where
  | productCreate (req : ProductCreateRequest)
  | variantsBulkCreate (productId : Str) (variants : List VariantCreateInput) (strategy : Str)
  | variantsBulkUpdate (productId : Str) (variants : List VariantUpdateInput)
deriving DecidableEq

/-! ## Responses returned by the remote service -/

/-- A remote-reported user error (`userErrors { field message }`; only the
message is consumed by the code). -/
structure UserError where
  message : Str
deriving DecidableEq

/-- A created option of the `productCreate` response (`options { id name }`). -/
structure CreatedOption where
  id : Str
  name : Str
deriving DecidableEq

/-- The created product of the `productCreate` response: id, created options
and the ids of `variants(first: 1)`. -/
structure CreatedProduct where
  id : Str
  options : List CreatedOption
  variants : List Str
deriving DecidableEq

/-- The `productCreate` response payload. -/
structure ProductCreateResponse where
  product : Option CreatedProduct
  userErrors : List UserError
deriving DecidableEq

/-- The `productVariantsBulkCreate` response payload: ids of the created
variants and user errors. -/
structure VariantsBulkCreateResponse where
  productVariants : List Str
  userErrors : List UserError
deriving DecidableEq

/-- The remote service as an oracle: the responses it returns to the
`productCreate` and `productVariantsBulkCreate` calls issued while
processing the duplicate at a given index. (The code issues at most one call
of each kind per duplicate; `productVariantsBulkUpdate` responses are only
logged and never influence control flow or results, so they are not
modelled.) -/
structure Remote where
  createResp : Nat → ProductCreateResponse
  bulkCreateResp : Nat → VariantsBulkCreateResponse

/-! ## The duplication run, translated from `bulkDuplicateProducts.ts` -/

/-- `node?.image?.url || node?.preview?.image?.url`: JavaScript `||` falls
through to the preview URL when the primary URL is absent or empty. -/
def mediaNodeUrl (n : MediaNode) : Option Str :=
  match n.imageUrl with
  | some u => if u ≠ [] then some u else n.previewImageUrl
  | none => n.previewImageUrl

/-- `baseImageUrls` (lines 140-146): the URLs collected from media nodes of
content type IMAGE, keeping only truthy (nonempty) URLs, in media order. -/
def baseImageUrls (base : BaseProduct) : List Str :=
  base.media.foldl
    (fun acc n =>
      if n.mediaContentType = "IMAGE".data then
        match mediaNodeUrl n with
        | some u => if u ≠ [] then acc ++ [u] else acc
        | none => acc
      else acc) []

/-- `Array.isArray(dup.imageUrls) && dup.imageUrls.length > 0 ? dup.imageUrls
: baseImageUrls` (line 155). -/
def resolveMediaUrls (dup : DuplicateInput) (baseUrls : List Str) : List Str :=
  match dup.imageUrls with
  | some l => if l.length > 0 then l else baseUrls
  | none => baseUrls

/-- `mediaInput` (lines 190-193): the resolved URLs capped at 50 entries,
each one an IMAGE media attachment. -/
def mediaInputFor (dup : DuplicateInput) (baseUrls : List Str) : List MediaCreateInput :=
  ((resolveMediaUrls dup baseUrls).take 50).map (fun u => ⟨u, "IMAGE".data⟩)

/-- The `productInput` built for one duplicate (lines 159-175). JavaScript
semantics rendered explicitly: the title test
`dup.title && dup.title.trim().length > 0` treats the empty string as falsy
and installs the trimmed override; `??` on the other scalar fields keeps a
present override even when it is the empty string; an array-valued `tags` is
used verbatim while a string-valued `tags` is split on commas, trimmed, with
empty entries dropped. -/
def buildProductInput (base : BaseProduct) (dup : DuplicateInput) : ProductInput :=
  { title :=
      match dup.title with
      | some t => if t ≠ [] ∧ trimStr t ≠ [] then trimStr t else base.title
      | none => base.title
    descriptionHtml := dup.descriptionHtml <|> base.descriptionHtml
    vendor := dup.vendor <|> base.vendor
    productType := dup.productType <|> base.productType
    tags :=
      match dup.tags with
      | some (.arr l) => l
      | some (.str s) => ((splitOnChar ',' s).map trimStr).filter (fun t => !t.isEmpty)
      | none => base.tags.getD []
    productOptions :=
      base.options.map (fun opt => ⟨opt.name, opt.optionValues.map (fun ov => ov.name)⟩) }

/-- The `optionIdByName` map built from the created options (lines 215-218):
`Map.set` overwrites, so for duplicate names the last created option wins;
`Map.get` yields undefined for missing names. -/
def lookupOptionId (opts : List CreatedOption) (name : Str) : Option Str :=
  (opts.reverse.find? (fun o => o.name == name)).map (fun o => o.id)

/-- The bulk-create variant inputs (lines 220-226): each base variant's price
is carried over, and each selected option contributes its value as the new
value name together with the created product's option id looked up by option
name. -/
def variantsInputFor (baseVariants : List BaseVariant) (createdOptions : List CreatedOption) :
    List VariantCreateInput :=
  baseVariants.map (fun bv =>
    { price := bv.price
      optionValues := bv.selectedOptions.map (fun so =>
        ⟨so.value, lookupOptionId createdOptions so.name⟩) })

/-- The abort message raised when `productCreate` reports user errors:
`Failed to create duplicate #N: msg1; msg2; ...` with N the 1-based index. -/
def createFailMessage (idx : Nat) (errs : List UserError) : Str :=
  "Failed to create duplicate #".data ++ (Nat.repr (idx + 1)).data ++ ": ".data
    ++ joinSep "; ".data (errs.map (fun e => e.message))

/-- The variant-replication and price-override phase for one duplicate
(lines 210-274), returning the remote calls it issues. Bulk-create and
bulk-update user errors are logged only: they never abort the run. -/
def variantPhase (base : BaseProduct) (remote : Remote) (idx : Nat)
    (dup : DuplicateInput) (created : CreatedProduct) : List RemoteCall :=
  if base.variants ≠ [] then
    let vcCall := RemoteCall.variantsBulkCreate created.id
      (variantsInputFor base.variants created.options) "REMOVE_STANDALONE_VARIANT".data
    let vcResp := remote.bulkCreateResp idx
    if vcResp.userErrors ≠ [] then
      [vcCall]
    else
      match dup.price with
      | some pr =>
          if pr ≠ [] then
            match vcResp.productVariants.head? with
            | some fv =>
                if fv ≠ [] then
                  [vcCall, .variantsBulkUpdate created.id [⟨fv, pr⟩]]
                else [vcCall]
            | none => [vcCall]
          else [vcCall]
      | none => [vcCall]
  else
    match dup.price with
    | some pr =>
        if pr ≠ [] then
          match created.variants.head? with
          | some fv =>
              if fv ≠ [] then [RemoteCall.variantsBulkUpdate created.id [⟨fv, pr⟩]]
              else []
          | none => []
        else []
    | none => []

/-- `media: mediaInput.length ? mediaInput : undefined` (line 197). -/
def optMedia (l : List MediaCreateInput) : Option (List MediaCreateInput) :=
  if l.length ≠ 0 then some l else none

/-- Processing of a single duplicate (loop body, lines 153-279): build the
creation request, issue `productCreate`, abort on user errors or a missing
created product id, otherwise run the variant phase. Returns the calls
issued together with the abort message or the new product id. -/
def processOne (base : BaseProduct) (remote : Remote) (idx : Nat) (dup : DuplicateInput) :
    List RemoteCall × Except Str Str :=
  let req : ProductCreateRequest :=
    ⟨buildProductInput base dup, optMedia (mediaInputFor dup (baseImageUrls base))⟩
  let resp := remote.createResp idx
  let tail : List RemoteCall × Except Str Str :=
    if resp.userErrors ≠ [] then
      ([], .error (createFailMessage idx resp.userErrors))
    else
      match resp.product with
      | none => ([], .error "productCreate returned no product id".data)
      | some created =>
          if created.id = [] then
            ([], .error "productCreate returned no product id".data)
          else
            (variantPhase base remote idx dup created, .ok created.id)
  (.productCreate req :: tail.1, tail.2)

/-- The sequential per-duplicate loop (lines 153-279): duplicates are
processed in input order, created product ids are accumulated in order, and
the first abort stops the loop. -/
def runLoop (base : BaseProduct) (remote : Remote) :
    Nat → List DuplicateInput → List RemoteCall × Except Str (List Str)
  | _, [] => ([], .ok [])
  | idx, dup :: rest =>
      match processOne base remote idx dup with
      | (calls, .error e) => (calls, .error e)
      | (calls, .ok newId) =>
          match runLoop base remote (idx + 1) rest with
          | (calls2, .error e) => (calls ++ calls2, .error e)
          | (calls2, .ok ids) => (calls ++ calls2, .ok (newId :: ids))

/-- The validation regex test `/^gid:\/\/shopify\/Product\/.+/.test(s)`: the
string must start with `gid://shopify/Product/` followed by at least one
character, which (being matched by `.`) must not be a newline. -/
def gidValid (s : Str) : Bool :=
  ("gid://shopify/Product/".data).isPrefixOf s &&
    match s.drop ("gid://shopify/Product/".data).length with
    | [] => false
    | c :: _ => c != '\n'

/-- The result value of a successful run: `{ productIds, count }`. -/
structure RunOutput where
  productIds : List Str
  count : Nat
deriving DecidableEq

/-- The `run` entry point of `bulkDuplicateProducts.ts` (lines 102-286):
input validation, id normalization and pattern check, source-product lookup
(the oracle `baseLookup` stands for the remote base-product query, returning
`none` when the product is not found), then the sequential duplication loop.
An active connection is assumed. -/
def runBulkDuplicate (sourceProductId : Str) (duplicates : List DuplicateInput)
    (baseLookup : Str → Option BaseProduct) (remote : Remote) :
    List RemoteCall × Except Str RunOutput :=
  if sourceProductId = [] then ([], .error "sourceProductId is required".data)
  else
    let sourceGid := normalizeGid sourceProductId
    if gidValid sourceGid = false then
      ([], .error "sourceProductId must be a valid Shopify Product Global ID".data)
    else if duplicates = [] then
      ([], .error "duplicates must be a non-empty array".data)
    else
      match baseLookup sourceGid with
      | none => ([], .error "Base product not found".data)
      | some base =>
          match runLoop base remote 0 duplicates with
          | (calls, .error e) => (calls, .error e)
          | (calls, .ok ids) => (calls, .ok ⟨ids, ids.length⟩)

/-! ## Sample values used by concrete theorems -/

/-- A sample source product. -/
def sampleBase : BaseProduct :=
  { id := "gid://shopify/Product/1".data
    title := "Base title".data
    descriptionHtml := some "<p>desc</p>".data
    vendor := some "ACME".data
    productType := some "Shirt".data
    tags := some ["red".data, "sale".data]
    options := [⟨"o1".data, "Size".data, [⟨"ov1".data, "S".data⟩, ⟨"ov2".data, "M".data⟩]⟩]
    variants := []
    media := [⟨"IMAGE".data, some "https://cdn/img1.png".data, none⟩,
              ⟨"VIDEO".data, none, some "https://cdn/vid-preview.png".data⟩,
              ⟨"IMAGE".data, none, some "https://cdn/img2-preview.png".data⟩] }

/-! ## Helper lemmas about the processing of one duplicate -/

theorem processOne_ok (base : BaseProduct) (remote : Remote) (idx : Nat)
    (dup : DuplicateInput) (c : CreatedProduct)
    (h1 : (remote.createResp idx).userErrors = [])
    (h2 : (remote.createResp idx).product = some c) (h3 : c.id ≠ []) :
    processOne base remote idx dup
      = (.productCreate ⟨buildProductInput base dup,
            optMedia (mediaInputFor dup (baseImageUrls base))⟩
          :: variantPhase base remote idx dup c, .ok c.id) := by
  simp [processOne, h1, h2, h3]

theorem processOne_err (base : BaseProduct) (remote : Remote) (idx : Nat)
    (dup : DuplicateInput) (errs : List UserError)
    (h : (remote.createResp idx).userErrors = errs) (hne : errs ≠ []) :
    processOne base remote idx dup
      = ([.productCreate ⟨buildProductInput base dup,
            optMedia (mediaInputFor dup (baseImageUrls base))⟩],
         .error (createFailMessage idx errs)) := by
  simp [processOne, h, hne]

theorem processOne_head (base : BaseProduct) (remote : Remote) (idx : Nat)
    (dup : DuplicateInput) :
    (processOne base remote idx dup).1.head?
      = some (.productCreate ⟨buildProductInput base dup,
          optMedia (mediaInputFor dup (baseImageUrls base))⟩) := rfl

/-! ## C3: scalar field overrides -/

/-- A duplicate spec whose vendor override is whitespace only. -/
def blankVendorDup : DuplicateInput := { vendor := some " ".data }

/-- C3 counterexample: a vendor override that is present but trims to empty
is installed verbatim in the creation request instead of falling back to the
source vendor, refuting the claim that every overridable scalar field falls
back when its override trims to empty. -/
theorem vendor_blank_override_counterexample :
    trimStr " ".data = [] ∧
    (buildProductInput sampleBase blankVendorDup).vendor = some " ".data ∧
    (buildProductInput sampleBase blankVendorDup).vendor ≠ sampleBase.vendor := by
  refine ⟨by decide, by decide, by decide⟩

/-- C3 amended: only the title follows the present-and-nonempty-after-trim
rule, and it installs the trimmed override; `descriptionHtml`, `vendor` and
`productType` take the override whenever it is present — even when empty or
whitespace-only — and fall back to the source value only when the override
is absent. -/
theorem scalar_override_semantics (base : BaseProduct) (dup : DuplicateInput) :
    (∀ t, dup.title = some t → trimStr t ≠ [] →
        (buildProductInput base dup).title = trimStr t) ∧
    (∀ t, dup.title = some t → trimStr t = [] →
        (buildProductInput base dup).title = base.title) ∧
    (dup.title = none → (buildProductInput base dup).title = base.title) ∧
    (∀ v, dup.descriptionHtml = some v →
        (buildProductInput base dup).descriptionHtml = some v) ∧
    (dup.descriptionHtml = none →
        (buildProductInput base dup).descriptionHtml = base.descriptionHtml) ∧
    (∀ v, dup.vendor = some v → (buildProductInput base dup).vendor = some v) ∧
    (dup.vendor = none → (buildProductInput base dup).vendor = base.vendor) ∧
    (∀ v, dup.productType = some v → (buildProductInput base dup).productType = some v) ∧
    (dup.productType = none → (buildProductInput base dup).productType = base.productType) := by
  refine ⟨?_, ?_, ?_, ?_, ?_, ?_, ?_, ?_, ?_⟩
  · intro t ht htr
    have hne : t ≠ [] := by
      intro h0
      rw [h0] at htr
      exact htr rfl
    simp [buildProductInput, ht, hne, htr]
  · intro t ht htr
    simp [buildProductInput, ht, htr]
  · intro ht; simp [buildProductInput, ht]
  · intro v hv; simp [buildProductInput, hv, Option.orElse]
  · intro hv; simp [buildProductInput, hv, Option.orElse]
  · intro v hv; simp [buildProductInput, hv, Option.orElse]
  · intro hv; simp [buildProductInput, hv, Option.orElse]
  · intro v hv; simp [buildProductInput, hv, Option.orElse]
  · intro hv; simp [buildProductInput, hv, Option.orElse]

/-- A duplicate spec exercising the title and vendor rules at once. -/
def titledDup : DuplicateInput :=
  { title := some "  New title  ".data, vendor := some "".data }

/-- Witness for C3's amended theorem at concrete inputs. -/
theorem scalar_override_semantics_witness :
    (buildProductInput sampleBase titledDup).title = trimStr "  New title  ".data ∧
    (buildProductInput sampleBase titledDup).vendor = some "".data ∧
    (buildProductInput sampleBase titledDup).descriptionHtml = sampleBase.descriptionHtml := by
  obtain ⟨h1, _, _, _, h5, h6, _, _, _⟩ := scalar_override_semantics sampleBase titledDup
  exact ⟨h1 _ rfl (by decide), h6 _ rfl, h5 rfl⟩

/-! ## C6: media attachments inherited from the source product -/

/-- C6: when a duplicate's `imageUrls` override is absent or empty, the
media attachments sent with that duplicate's creation request are exactly
the source product's image URLs (primary image URL, falling back to the
preview image URL, per IMAGE media entry) in media order, capped at 50
entries, each attached as an IMAGE entry; and the creation request issued
first by the duplicate's processing carries exactly that list. -/
theorem media_inherited_from_base (base : BaseProduct) (dup : DuplicateInput)
    (remote : Remote) (idx : Nat)
    (h : dup.imageUrls = none ∨ dup.imageUrls = some []) :
    mediaInputFor dup (baseImageUrls base)
        = ((baseImageUrls base).take 50).map (fun u => ⟨u, "IMAGE".data⟩) ∧
    (mediaInputFor dup (baseImageUrls base)).map (fun m => m.originalSource)
        = (baseImageUrls base).take 50 ∧
    (∀ m ∈ mediaInputFor dup (baseImageUrls base), m.mediaContentType = "IMAGE".data) ∧
    (processOne base remote idx dup).1.head?
      = some (.productCreate ⟨buildProductInput base dup,
          optMedia (mediaInputFor dup (baseImageUrls base))⟩) := by
  have hres : resolveMediaUrls dup (baseImageUrls base) = baseImageUrls base := by
    rcases h with h | h <;> simp [resolveMediaUrls, h]
  refine ⟨?_, ?_, ?_, processOne_head base remote idx dup⟩
  · simp [mediaInputFor, hres]
  · simp [mediaInputFor, hres, List.map_map, Function.comp_def]
  · intro m hm
    simp only [mediaInputFor, List.mem_map] at hm
    obtain ⟨u, _, rfl⟩ := hm
    rfl

/-- Witness for C6 at a concrete source product with three media nodes: the
non-IMAGE node is skipped and the IMAGE node without a primary URL
contributes its preview URL. -/
theorem media_inherited_from_base_witness :
    mediaInputFor { } (baseImageUrls sampleBase)
      = [⟨"https://cdn/img1.png".data, "IMAGE".data⟩,
         ⟨"https://cdn/img2-preview.png".data, "IMAGE".data⟩] ∧
    baseImageUrls sampleBase
      = ["https://cdn/img1.png".data, "https://cdn/img2-preview.png".data] := by
  have h := media_inherited_from_base sampleBase { } ⟨fun _ => ⟨none, []⟩, fun _ => ⟨[], []⟩⟩ 0
    (Or.inl rfl)
  refine ⟨?_, by decide⟩
  rw [h.1]
  decide

/-! ## C7: tag overrides -/

/-- A duplicate spec with an array-valued tags override containing an
untrimmed entry and an empty entry. -/
def rawTagsDup : DuplicateInput := { tags := some (.arr [" a ".data, []]) }

/-- C7 counterexample: an array-valued tags override is used verbatim — its
entries are not trimmed and its empty entries are not dropped, refuting the
claim that tag entries are trimmed and empty entries dropped in both
accepted forms. -/
theorem tags_array_verbatim_counterexample :
    (buildProductInput sampleBase rawTagsDup).tags = [" a ".data, ([] : Str)] ∧
    (([" a ".data, ([] : Str)].map trimStr).filter (fun t => !t.isEmpty)) = ["a".data] ∧
    (buildProductInput sampleBase rawTagsDup).tags
      ≠ (([" a ".data, ([] : Str)].map trimStr).filter (fun t => !t.isEmpty)) := by
  refine ⟨by decide, by decide, by decide⟩

/-- C7 amended: a present tags override fully replaces the source tags (no
merging), including the empty-array case which yields an empty tag list; a
string-valued override is split on commas with entries trimmed and empty
entries dropped, while an array-valued override is used verbatim; when the
override is absent the source product's tags (or the empty list when the
source reports none) are used. -/
theorem tags_override_semantics (base : BaseProduct) (dup : DuplicateInput) :
    (∀ l, dup.tags = some (.arr l) → (buildProductInput base dup).tags = l) ∧
    (dup.tags = some (.arr []) → (buildProductInput base dup).tags = []) ∧
    (∀ s, dup.tags = some (.str s) →
        (buildProductInput base dup).tags
          = ((splitOnChar ',' s).map trimStr).filter (fun t => !t.isEmpty)) ∧
    (dup.tags = none → (buildProductInput base dup).tags = base.tags.getD []) := by
  refine ⟨?_, ?_, ?_, ?_⟩
  · intro l hl; simp [buildProductInput, hl]
  · intro hl; simp [buildProductInput, hl]
  · intro s hs; simp [buildProductInput, hs]
  · intro hn; simp [buildProductInput, hn]

/-- A duplicate spec with a comma-separated string tags override. -/
def strTagsDup : DuplicateInput := { tags := some (.str " a , ,b ".data) }

/-- A duplicate spec with an empty-array tags override. -/
def emptyTagsDup : DuplicateInput := { tags := some (.arr []) }

/-- Witness for C7's amended theorem at concrete inputs: the empty array
fully replaces the source tags, and the string form is split, trimmed and
filtered. -/
theorem tags_override_semantics_witness :
    (buildProductInput sampleBase emptyTagsDup).tags = [] ∧
    (buildProductInput sampleBase strTagsDup).tags = ["a".data, "b".data] := by
  refine ⟨(tags_override_semantics sampleBase emptyTagsDup).2.1 rfl, ?_⟩
  rw [(tags_override_semantics sampleBase strTagsDup).2.2.1 _ rfl]
  decide

/-! ## C1: a successful run returns one id per duplicate, in order -/

theorem runLoop_ok (base : BaseProduct) (remote : Remote)
    (hok : ∀ i, (remote.createResp i).userErrors = [] ∧
      ∃ c, (remote.createResp i).product = some c ∧ c.id ≠ []) :
    ∀ (dups : List DuplicateInput) (start : Nat),
      ∃ calls ids, runLoop base remote start dups = (calls, .ok ids) ∧
        ids.length = dups.length ∧
        ∀ i, i < dups.length →
          ids[i]? = ((remote.createResp (start + i)).product).map (fun c => c.id) := by
  intro dups
  induction dups with
  | nil =>
      intro start
      exact ⟨[], [], rfl, rfl, fun i hi => absurd hi (by simp)⟩
  | cons dup rest ih =>
      intro start
      obtain ⟨h1, c, hc, hcne⟩ := hok start
      obtain ⟨calls2, ids2, hrec, hlen, hidx⟩ := ih (start + 1)
      refine ⟨(.productCreate ⟨buildProductInput base dup,
          optMedia (mediaInputFor dup (baseImageUrls base))⟩
            :: variantPhase base remote start dup c) ++ calls2,
        c.id :: ids2, ?_, by simp [hlen], ?_⟩
      · simp [runLoop, processOne_ok base remote start dup c h1 hc hcne, hrec]
      · intro i hi
        match i with
        | 0 => simp [hc]
        | Nat.succ n =>
            have hn : n < rest.length := by simpa using hi
            have h := hidx n hn
            rw [show start + (n + 1) = start + 1 + n by omega]
            simpa using h

/-- C1: for every non-empty duplicates list of length N whose source product
resolves successfully, when no remote call reports user errors (and every
creation returns a product with a nonempty id), the run succeeds and returns
`productIds` of length N and `count = N`, the i-th id being exactly the id
the remote created for the i-th duplicate spec. -/
theorem run_success_returns_n_ids (sourceProductId : Str)
    (duplicates : List DuplicateInput) (baseLookup : Str → Option BaseProduct)
    (remote : Remote) (base : BaseProduct)
    (hsrc : sourceProductId ≠ [])
    (hvalid : gidValid (normalizeGid sourceProductId) = true)
    (hbase : baseLookup (normalizeGid sourceProductId) = some base)
    (hdups : duplicates ≠ [])
    (hok : ∀ i, (remote.createResp i).userErrors = [] ∧
      (∃ c, (remote.createResp i).product = some c ∧ c.id ≠ []) ∧
      (remote.bulkCreateResp i).userErrors = []) :
    ∃ calls out,
      runBulkDuplicate sourceProductId duplicates baseLookup remote = (calls, .ok out) ∧
      out.productIds.length = duplicates.length ∧
      out.count = duplicates.length ∧
      ∀ i, i < duplicates.length →
        out.productIds[i]? = ((remote.createResp i).product).map (fun c => c.id) := by
  obtain ⟨calls, ids, hloop, hlen, hidx⟩ :=
    runLoop_ok base remote (fun i => ⟨(hok i).1, (hok i).2.1⟩) duplicates 0
  refine ⟨calls, ⟨ids, ids.length⟩, ?_, hlen, hlen, ?_⟩
  · simp [runBulkDuplicate, hsrc, hvalid, hdups, hbase, hloop]
  · intro i hi
    simpa using hidx i hi

/-- A duplicate spec with no overrides. -/
def emptyDup : DuplicateInput := { }

/-- A created product returned by the sample remotes. -/
def okCreated : CreatedProduct :=
  ⟨"gid://shopify/Product/9".data, [⟨"no1".data, "Size".data⟩], ["sv1".data]⟩

/-- A sample remote answering every call successfully. -/
def okRemote : Remote :=
  { createResp := fun _ => ⟨some okCreated, []⟩
    bulkCreateResp := fun _ => ⟨["w1".data, "w2".data], []⟩ }

/-- A source-product lookup resolving every id to the sample product. -/
def sampleLookup : Str → Option BaseProduct := fun _ => some sampleBase

/-- Witness for C1 with two duplicates against the sample remote. -/
theorem run_success_returns_n_ids_witness :
    ∃ calls out,
      runBulkDuplicate "gid://shopify/Product/1".data [emptyDup, emptyDup]
          sampleLookup okRemote = (calls, .ok out) ∧
      out.productIds.length = 2 ∧
      out.count = 2 ∧
      ∀ i, i < 2 → out.productIds[i]? = some okCreated.id := by
  obtain ⟨calls, out, h1, h2, h3, h4⟩ :=
    run_success_returns_n_ids "gid://shopify/Product/1".data [emptyDup, emptyDup]
      sampleLookup okRemote sampleBase (by decide) (by decide) rfl (by decide)
      (fun i => ⟨rfl, ⟨okCreated, rfl, by decide⟩, rfl⟩)
  exact ⟨calls, out, h1, h2, h3, fun i hi => by rw [h4 i hi]; rfl⟩

/-! ## C4: a creation error on the second duplicate aborts the run -/

/-- Whether a remote call is a `productCreate`. -/
def isCreateCall : RemoteCall → Bool
  | .productCreate _ => true
  | _ => false

/-- Whether a remote call is a `productVariantsBulkCreate`. -/
def isBulkCreateCall : RemoteCall → Bool
  | .variantsBulkCreate _ _ _ => true
  | _ => false

/-- Whether a remote call is a `productVariantsBulkUpdate`. -/
def isBulkUpdateCall : RemoteCall → Bool
  | .variantsBulkUpdate _ _ => true
  | _ => false

theorem variantPhase_no_productCreate (base : BaseProduct) (remote : Remote)
    (idx : Nat) (dup : DuplicateInput) (created : CreatedProduct) :
    (variantPhase base remote idx dup created).filter isCreateCall = [] := by
  simp only [variantPhase]
  repeat' split
  all_goals rfl

/-- C4: with three duplicates, when the first creation succeeds and the
creation call for the second duplicate reports user errors, the run aborts
with the error `Failed to create duplicate #2: ...` carrying the joined
remote messages; exactly two creation calls are issued (none for the third
duplicate) and the aborted run returns no ids. -/
theorem second_duplicate_error_aborts (sourceProductId : Str)
    (baseLookup : Str → Option BaseProduct) (remote : Remote) (base : BaseProduct)
    (d1 d2 d3 : DuplicateInput) (c : CreatedProduct) (errs : List UserError)
    (hsrc : sourceProductId ≠ [])
    (hvalid : gidValid (normalizeGid sourceProductId) = true)
    (hbase : baseLookup (normalizeGid sourceProductId) = some base)
    (h1 : (remote.createResp 0).userErrors = [])
    (h1p : (remote.createResp 0).product = some c) (h1id : c.id ≠ [])
    (h2 : (remote.createResp 1).userErrors = errs) (herrs : errs ≠ []) :
    ∃ calls,
      runBulkDuplicate sourceProductId [d1, d2, d3] baseLookup remote
        = (calls, .error (createFailMessage 1 errs)) ∧
      (calls.filter isCreateCall).length = 2 ∧
      createFailMessage 1 errs
        = "Failed to create duplicate #2: ".data
            ++ joinSep "; ".data (errs.map (fun e => e.message)) := by
  have hp1 := processOne_ok base remote 0 d1 c h1 h1p h1id
  have hp2 := processOne_err base remote 1 d2 errs h2 herrs
  refine ⟨(.productCreate ⟨buildProductInput base d1,
      optMedia (mediaInputFor d1 (baseImageUrls base))⟩
        :: variantPhase base remote 0 d1 c)
      ++ [.productCreate ⟨buildProductInput base d2,
          optMedia (mediaInputFor d2 (baseImageUrls base))⟩], ?_, ?_, ?_⟩
  · simp [runBulkDuplicate, hsrc, hvalid, hbase, runLoop, hp1, hp2]
  · simp [List.filter_append, variantPhase_no_productCreate, isCreateCall]
  · rfl

/-- A sample remote whose second (and later) creation calls fail with a
user error. -/
def errRemote : Remote :=
  { createResp := fun i => if i = 0 then ⟨some okCreated, []⟩ else ⟨none, [⟨"boom".data⟩]⟩
    bulkCreateResp := fun _ => ⟨["w1".data], []⟩ }

/-- Witness for C4 against the sample remote: the run aborts with
`Failed to create duplicate #2: boom` after exactly two creation calls. -/
theorem second_duplicate_error_aborts_witness :
    ∃ calls,
      runBulkDuplicate "gid://shopify/Product/1".data [emptyDup, emptyDup, emptyDup]
          sampleLookup errRemote
        = (calls, .error (createFailMessage 1 [⟨"boom".data⟩])) ∧
      (calls.filter isCreateCall).length = 2 ∧
      createFailMessage 1 [⟨"boom".data⟩]
        = "Failed to create duplicate #2: ".data
            ++ joinSep "; ".data ([⟨"boom".data⟩].map (fun e : UserError => e.message)) :=
  second_duplicate_error_aborts "gid://shopify/Product/1".data sampleLookup errRemote
    sampleBase emptyDup emptyDup emptyDup okCreated [⟨"boom".data⟩]
    (by decide) (by decide) rfl rfl rfl (by decide) rfl (by decide)

/-! ## C8: price override applied to the first created variant only -/

/-- C8: with a source product of exactly two variants priced "10.00" and
"12.00" and a duplicate carrying the price override "9.99", when creation
succeeds and the bulk variant-create succeeds returning a first variant id,
the duplicate's processing issues exactly one bulk-update call and it sets
that first created variant's price to "9.99"; the single bulk-create call
itself carries the source prices "10.00" and "12.00" in order, so the second
created variant keeps "12.00". -/
theorem price_override_first_variant (base : BaseProduct) (remote : Remote)
    (dup : DuplicateInput) (idx : Nat) (c : CreatedProduct)
    (bv1 bv2 : BaseVariant) (w1 : Str) (ws : List Str)
    (hvars : base.variants = [bv1, bv2])
    (hp1 : bv1.price = some "10.00".data) (hp2 : bv2.price = some "12.00".data)
    (hprice : dup.price = some "9.99".data)
    (hcok : (remote.createResp idx).userErrors = [])
    (hcp : (remote.createResp idx).product = some c) (hcid : c.id ≠ [])
    (hvc : (remote.bulkCreateResp idx).userErrors = [])
    (hvs : (remote.bulkCreateResp idx).productVariants = w1 :: ws) (hw1 : w1 ≠ []) :
    (processOne base remote idx dup).1.filter isBulkUpdateCall
      = [.variantsBulkUpdate c.id [⟨w1, "9.99".data⟩]] ∧
    (processOne base remote idx dup).1.filter isBulkCreateCall
      = [.variantsBulkCreate c.id (variantsInputFor [bv1, bv2] c.options)
          "REMOVE_STANDALONE_VARIANT".data] ∧
    (variantsInputFor [bv1, bv2] c.options).map (fun v => v.price)
      = [some "10.00".data, some "12.00".data] := by
  have hstep := processOne_ok base remote idx dup c hcok hcp hcid
  have hvp : variantPhase base remote idx dup c
      = [.variantsBulkCreate c.id (variantsInputFor [bv1, bv2] c.options)
            "REMOVE_STANDALONE_VARIANT".data,
         .variantsBulkUpdate c.id [⟨w1, "9.99".data⟩]] := by
    simp [variantPhase, hvars, hvc, hprice, hvs, hw1,
      show ("9.99".data : Str) ≠ [] by decide]
  refine ⟨?_, ?_, ?_⟩
  · rw [hstep]
    show (RemoteCall.productCreate _ :: variantPhase base remote idx dup c).filter
        isBulkUpdateCall = _
    rw [hvp]
    rfl
  · rw [hstep]
    show (RemoteCall.productCreate _ :: variantPhase base remote idx dup c).filter
        isBulkCreateCall = _
    rw [hvp]
    rfl
  · simp [variantsInputFor, hp1, hp2]

/-- A source product with two variants priced "10.00" and "12.00". -/
def base2v : BaseProduct :=
  { sampleBase with
      variants :=
        [⟨"bv1".data, some "10.00".data, [⟨"Size".data, "S".data⟩]⟩,
         ⟨"bv2".data, some "12.00".data, [⟨"Size".data, "M".data⟩]⟩] }

/-- A duplicate spec carrying only the price override "9.99". -/
def priceDup : DuplicateInput := { price := some "9.99".data }

/-- Witness for C8 against the sample two-variant product and the sample
remote, whose bulk-create returns variant ids "w1" and "w2". -/
theorem price_override_first_variant_witness :
    (processOne base2v okRemote 0 priceDup).1.filter isBulkUpdateCall
      = [.variantsBulkUpdate okCreated.id [⟨"w1".data, "9.99".data⟩]] ∧
    (processOne base2v okRemote 0 priceDup).1.filter isBulkCreateCall
      = [.variantsBulkCreate okCreated.id
          (variantsInputFor base2v.variants okCreated.options)
          "REMOVE_STANDALONE_VARIANT".data] ∧
    (variantsInputFor base2v.variants okCreated.options).map (fun v => v.price)
      = [some "10.00".data, some "12.00".data] := by
  obtain ⟨h1, h2, h3⟩ := price_override_first_variant base2v okRemote priceDup 0 okCreated
    ⟨"bv1".data, some "10.00".data, [⟨"Size".data, "S".data⟩]⟩
    ⟨"bv2".data, some "12.00".data, [⟨"Size".data, "M".data⟩]⟩
    "w1".data ["w2".data] rfl rfl rfl rfl rfl rfl (by decide) rfl rfl (by decide)
  exact ⟨h1, h2, h3⟩

/-! ## C10: the price-override update is gated on bulk-create success -/

theorem variantPhase_update_cond (base : BaseProduct) (remote : Remote) (idx : Nat)
    (dup : DuplicateInput) (created : CreatedProduct) (hvars : base.variants ≠ [])
    (pid : Str) (vs : List VariantUpdateInput)
    (hmem : RemoteCall.variantsBulkUpdate pid vs ∈ variantPhase base remote idx dup created) :
    (remote.bulkCreateResp idx).userErrors = [] ∧
    ∃ fv, (remote.bulkCreateResp idx).productVariants.head? = some fv ∧ fv ≠ [] := by
  by_cases hvc : (remote.bulkCreateResp idx).userErrors = []
  · rcases hp : dup.price with _ | pr
    · have hvp : variantPhase base remote idx dup created
          = [.variantsBulkCreate created.id (variantsInputFor base.variants created.options)
              "REMOVE_STANDALONE_VARIANT".data] := by
        simp [variantPhase, hvars, hvc, hp]
      rw [hvp] at hmem; simp at hmem
    · by_cases hpr : pr = []
      · have hvp : variantPhase base remote idx dup created
            = [.variantsBulkCreate created.id (variantsInputFor base.variants created.options)
                "REMOVE_STANDALONE_VARIANT".data] := by
          simp [variantPhase, hvars, hvc, hp, hpr]
        rw [hvp] at hmem; simp at hmem
      · rcases hh : (remote.bulkCreateResp idx).productVariants.head? with _ | fv
        · have hvp : variantPhase base remote idx dup created
              = [.variantsBulkCreate created.id (variantsInputFor base.variants created.options)
                  "REMOVE_STANDALONE_VARIANT".data] := by
            simp [variantPhase, hvars, hvc, hp, hpr, hh]
          rw [hvp] at hmem; simp at hmem
        · by_cases hfv : fv = []
          · have hvp : variantPhase base remote idx dup created
                = [.variantsBulkCreate created.id (variantsInputFor base.variants created.options)
                    "REMOVE_STANDALONE_VARIANT".data] := by
              simp [variantPhase, hvars, hvc, hp, hpr, hh, hfv]
            rw [hvp] at hmem; simp at hmem
          · exact ⟨hvc, fv, rfl, hfv⟩
  · have hvp : variantPhase base remote idx dup created
        = [.variantsBulkCreate created.id (variantsInputFor base.variants created.options)
            "REMOVE_STANDALONE_VARIANT".data] := by
      rw [variantPhase, if_pos hvars, if_pos hvc]
    rw [hvp] at hmem; simp at hmem

/-- C10: when the source product has variants and the creation call for a
duplicate succeeded, a price-override bulk-update call is issued only if the
bulk variant-create reported no user errors and its first returned variant
id is nonempty; when the bulk-create reports user errors the update is
silently skipped — only the creation and bulk-create calls are issued, the
duplicate still yields its product id — and the loop continues with the
remaining duplicates. -/
theorem price_update_requires_bulk_create_ok (base : BaseProduct) (remote : Remote)
    (idx : Nat) (dup : DuplicateInput) (c : CreatedProduct)
    (hvars : base.variants ≠ [])
    (hcok : (remote.createResp idx).userErrors = [])
    (hcp : (remote.createResp idx).product = some c) (hcid : c.id ≠ []) :
    (∀ pid vs, RemoteCall.variantsBulkUpdate pid vs ∈ (processOne base remote idx dup).1 →
        (remote.bulkCreateResp idx).userErrors = [] ∧
        ∃ fv, (remote.bulkCreateResp idx).productVariants.head? = some fv ∧ fv ≠ []) ∧
    ((remote.bulkCreateResp idx).userErrors ≠ [] →
        processOne base remote idx dup
          = ([.productCreate ⟨buildProductInput base dup,
                optMedia (mediaInputFor dup (baseImageUrls base))⟩,
              .variantsBulkCreate c.id (variantsInputFor base.variants c.options)
                "REMOVE_STANDALONE_VARIANT".data],
             .ok c.id)) ∧
    (∀ rest, (runLoop base remote idx (dup :: rest)).2
        = Except.map (fun ids => c.id :: ids) (runLoop base remote (idx + 1) rest).2) := by
  have hstep := processOne_ok base remote idx dup c hcok hcp hcid
  refine ⟨?_, ?_, ?_⟩
  · intro pid vs hmem
    rw [hstep] at hmem
    simp only [List.mem_cons] at hmem
    rcases hmem with hmem | hmem
    · exact absurd hmem (by simp)
    · exact variantPhase_update_cond base remote idx dup c hvars pid vs hmem
  · intro hvcErr
    rw [hstep]
    have hvp : variantPhase base remote idx dup c
        = [.variantsBulkCreate c.id (variantsInputFor base.variants c.options)
            "REMOVE_STANDALONE_VARIANT".data] := by
      rw [variantPhase, if_pos hvars, if_pos hvcErr]
    rw [hvp]
  · intro rest
    rcases hr : runLoop base remote (idx + 1) rest with ⟨calls2, r2⟩
    cases r2 <;> simp [runLoop, hstep, hr, Except.map]

/-- A sample remote whose bulk variant-create calls fail with a user error
while creation calls succeed. -/
def vcErrRemote : Remote :=
  { createResp := fun _ => ⟨some okCreated, []⟩
    bulkCreateResp := fun _ => ⟨[], [⟨"vc boom".data⟩]⟩ }

/-- Witness for C10: against a remote whose bulk-create fails, the duplicate
issues only the creation and bulk-create calls (no bulk-update), still
yields its product id, and a one-element run completes successfully. -/
theorem price_update_requires_bulk_create_ok_witness :
    processOne base2v vcErrRemote 0 priceDup
      = ([.productCreate ⟨buildProductInput base2v priceDup,
            optMedia (mediaInputFor priceDup (baseImageUrls base2v))⟩,
          .variantsBulkCreate okCreated.id
            (variantsInputFor base2v.variants okCreated.options)
            "REMOVE_STANDALONE_VARIANT".data],
         .ok okCreated.id) ∧
    (runLoop base2v vcErrRemote 0 [priceDup]).2 = .ok [okCreated.id] := by
  obtain ⟨h1, h2, h3⟩ := price_update_requires_bulk_create_ok base2v vcErrRemote 0 priceDup
    okCreated (by decide) rfl rfl (by decide)
  refine ⟨h2 (by decide), ?_⟩
  rw [h3 []]
  rfl

/-! ## The upload stager (`prepareImageUploads.ts`) -/

/-- A file descriptor received by `prepareImageUploads`
(`{ filename, mimeType, size?, httpMethod? }`). -/
structure FileDescriptor where
  filename : Str
  mimeType : Str
  size : Option Nat := none
  httpMethod : Option Str := none
deriving DecidableEq

/-- One entry of the `stagedUploadsCreate` input (lines 53-59 of
`prepareImageUploads.ts`). -/
structure StagedUploadInput where
  filename : Str
  mimeType : Str
  httpMethod : Str
  resource : Str
  fileSize : Option Str
deriving DecidableEq

/-- A staged upload target (`{ url, resourceUrl, parameters }`). -/
structure StagedTarget where
  url : Str
  resourceUrl : Str
  parameters : List (Str × Str)
deriving DecidableEq

/-- The remote `stagedUploadsCreate` response; the target list may be
absent. -/
structure StagedUploadsResponse where
  stagedTargets : Option (List StagedTarget)
  userErrors : List UserError
deriving DecidableEq

/-- The input mapping of `prepareImageUploads` (lines 53-59): `httpMethod`
defaults to POST, the resource is IMAGE, and a numeric size is stringified. -/
def toStagedUploadInput (f : FileDescriptor) : StagedUploadInput :=
  { filename := f.filename
    mimeType := f.mimeType
    httpMethod := f.httpMethod.getD "POST".data
    resource := "IMAGE".data
    fileSize := f.size.map (fun n => (Nat.repr n).data) }

/-- `run` of `prepareImageUploads.ts` (lines 43-72): validates that the file
list is non-empty, issues `stagedUploadsCreate` (the `stagedResp` oracle
gives the remote response to the input actually sent), fails when the remote
reports user errors by joining all their messages, and otherwise returns the
returned targets (an absent target list becomes the empty list). An active
connection is assumed. -/
def prepareImageUploads (files : List FileDescriptor)
    (stagedResp : List StagedUploadInput → StagedUploadsResponse) :
    Except Str (List StagedTarget) :=
  if files = [] then .error "files must be a non-empty array".data
  else
    let resp := stagedResp (files.map toStagedUploadInput)
    if resp.userErrors ≠ [] then
      .error (joinSep "; ".data (resp.userErrors.map (fun e => e.message)))
    else .ok (resp.stagedTargets.getD [])

/-- A sample file descriptor. -/
def fdSample : FileDescriptor :=
  { filename := "a.png".data, mimeType := "image/png".data, size := some 10 }

/-- A sample staged target. -/
def tgtA : StagedTarget := ⟨"u1".data, "r1".data, [("key".data, "k1".data)]⟩

/-- A second sample staged target. -/
def tgtB : StagedTarget := ⟨"u2".data, "r2".data, []⟩

/-- A remote staging response carrying two targets and no user errors. -/
def twoTargetResp : List StagedUploadInput → StagedUploadsResponse :=
  fun _ => ⟨some [tgtA, tgtB], []⟩

/-- C2 counterexample: `prepareImageUploads` performs no target-count
verification — called with one descriptor against a remote returning two
targets and no user errors, it succeeds and returns the two targets instead
of raising a fatal error. -/
theorem prepareImageUploads_no_count_check_counterexample :
    prepareImageUploads [fdSample] twoTargetResp = .ok [tgtA, tgtB] ∧
    [tgtA, tgtB].length ≠ [fdSample].length := by
  refine ⟨rfl, by decide⟩

/-! ## The client workflow step `uploadImagesIfNeeded` -/

/-- A local file selected in the browser (`File`: name, MIME type, byte
size). -/
structure LocalFile where
  name : Str
  mimeType : Str
  size : Nat
deriving DecidableEq

/-- One row of the duplicate editor, restricted to the field read by
`uploadImagesIfNeeded`. -/
structure Row where
  imageFiles : List LocalFile
deriving DecidableEq

/-- `allFiles` (lines 175-176 of the client route): every selected file
paired with its row index, pushed in row order then file order. -/
def allFilesOfAux : Nat → List Row → List (Nat × LocalFile)
  | _, [] => []
  | i, r :: rest => r.imageFiles.map (fun f => (i, f)) ++ allFilesOfAux (i + 1) rest

/-- `allFiles` starting at row index 0. -/
def allFilesOf (rows : List Row) : List (Nat × LocalFile) := allFilesOfAux 0 rows

/-- `reqFiles` (line 179): the descriptors sent to the staging action; an
empty MIME type falls back to `image/jpeg`. -/
def reqFilesOf (allFiles : List (Nat × LocalFile)) : List FileDescriptor :=
  allFiles.map (fun nf =>
    { filename := nf.2.name
      mimeType := if nf.2.mimeType ≠ [] then nf.2.mimeType else "image/jpeg".data
      size := some nf.2.size })

/-- `uploadImagesIfNeeded` from the client route (lines 173-209): collects
all selected files with their row indices; with no files it returns the
empty mapping without any remote call; otherwise it requests staged targets
through the `prepareImageUploads` action (the `prep` oracle), raises the
fatal error "Staged uploads count mismatch" when the returned target count
differs from the requested count, performs one upload per target (the
`uploadOk` oracle tells whether upload number `idx` was accepted; the
per-row resource URLs are recorded in target order, one rendering of the
concurrent pushes; the code's failure message additionally carries the HTTP
status and body), and returns the per-row resource-URL mapping. The first
component of the result lists the descriptor lists sent to the staging
action. -/
def uploadImagesIfNeeded (rows : List Row)
    (prep : List FileDescriptor → Except Str (List StagedTarget))
    (uploadOk : Nat → Bool) :
    List (List FileDescriptor) × Except Str (List (Nat × List Str)) :=
  let allFiles := allFilesOf rows
  if allFiles = [] then ([], .ok [])
  else
    let reqFiles := reqFilesOf allFiles
    match prep reqFiles with
    | .error e => ([reqFiles], .error e)
    | .ok targets =>
        if targets.length ≠ allFiles.length then
          ([reqFiles], .error "Staged uploads count mismatch".data)
        else if (List.range targets.length).all uploadOk = false then
          ([reqFiles], .error "Upload failed".data)
        else
          ([reqFiles],
            .ok ((List.range rows.length).map (fun i =>
              (i, targets.enum.filterMap (fun tIdx =>
                match (allFilesOf rows)[tIdx.1]? with
                | some nf => if nf.1 = i then some tIdx.2.resourceUrl else none
                | none => none)))))

/-- C2 amended: the target-count verification lives in the client step
`uploadImagesIfNeeded`, not in `prepareImageUploads`: when local files are
selected and the staging action returns a target list whose length differs
from the number of selected files, the client aborts with the fatal error
"Staged uploads count mismatch" before any upload — an error distinct from
the path that aggregates remote-reported user errors inside
`prepareImageUploads`. -/
theorem upload_count_mismatch_fatal (rows : List Row)
    (prep : List FileDescriptor → Except Str (List StagedTarget))
    (uploadOk : Nat → Bool) (targets : List StagedTarget)
    (hne : allFilesOf rows ≠ [])
    (hprep : prep (reqFilesOf (allFilesOf rows)) = .ok targets)
    (hlen : targets.length ≠ (allFilesOf rows).length) :
    uploadImagesIfNeeded rows prep uploadOk
      = ([reqFilesOf (allFilesOf rows)], .error "Staged uploads count mismatch".data) := by
  simp [uploadImagesIfNeeded, hne, hprep, hlen]

/-- A sample local file. -/
def localPng : LocalFile := ⟨"a.png".data, "image/png".data, 10⟩

/-- A staging oracle returning no targets at all. -/
def zeroTargetPrep : List FileDescriptor → Except Str (List StagedTarget) :=
  fun _ => .ok []

/-- Witness for C2's amended theorem: one selected file against a staging
oracle returning zero targets aborts with the count-mismatch error. -/
theorem upload_count_mismatch_fatal_witness :
    uploadImagesIfNeeded [⟨[localPng]⟩] zeroTargetPrep (fun _ => true)
      = ([reqFilesOf (allFilesOf [⟨[localPng]⟩])],
         .error "Staged uploads count mismatch".data) :=
  upload_count_mismatch_fatal [⟨[localPng]⟩] zeroTargetPrep (fun _ => true) []
    (by decide) rfl (by decide)

/-- C9: when every row has no selected local files, `uploadImagesIfNeeded`
returns the empty mapping and sends no request to the remote upload-staging
action. -/
theorem upload_no_files_no_call (rows : List Row)
    (prep : List FileDescriptor → Except Str (List StagedTarget))
    (uploadOk : Nat → Bool)
    (h : ∀ r ∈ rows, r.imageFiles = []) :
    uploadImagesIfNeeded rows prep uploadOk = ([], .ok []) := by
  have hall : ∀ i, allFilesOfAux i rows = [] := by
    induction rows with
    | nil => intro i; rfl
    | cons r rest ih =>
        intro i
        have hr : r.imageFiles = [] := h r (by simp)
        have ih2 := ih (fun r' hr' => h r' (by simp [hr']))
        simp [allFilesOfAux, hr, ih2]
  simp [uploadImagesIfNeeded, allFilesOf, hall 0]

/-- Witness for C9: two rows without files produce the empty mapping without
any staging request. -/
theorem upload_no_files_no_call_witness :
    uploadImagesIfNeeded [⟨[]⟩, ⟨[]⟩] zeroTargetPrep (fun _ => true) = ([], .ok []) :=
  upload_no_files_no_call [⟨[]⟩, ⟨[]⟩] zeroTargetPrep (fun _ => true) (by decide)

end BulkDup
